import Mathlib

/-!
Verification of the inventory dashboard ETL pipeline (`src/app.py`).

The file shallowly embeds the data-loading pipeline `load_and_process_data`
and the downstream filter / group-by-sum code of the dashboard:

* a spreadsheet is modelled as a `Grid`: a column count plus a list of rows,
  each row a list of `Cell`s (a cell is missing, a string, or an integer);
* `load_and_process_data` performs the column-count check (app.py:33-36),
  drops the header row (app.py:42), normalizes the three string columns
  (app.py:65-67), drops rows with a missing numeric cell (app.py:70), checks
  for emptiness (app.py:71-73) and coerces the numeric column (app.py:77);
* `df_filtrado` is the sentinel-guarded equality filtering (app.py:136-142);
* `groupBySum`, `df_marca_total_filtrado`, `df_resumen_producto`,
  `df_agrupado` and `top_10_productos` are the group-by / sum / sort-descending
  / head-10 aggregations (app.py:188, app.py:240-244, app.py:279-285).
-/

/-- A spreadsheet cell as pandas sees it after `pd.read_excel(..., header=None)`:
either missing (`NaN`), a text cell, or a numeric cell.  The source data are
box counts, so numeric cells are modelled as integers. -/
inductive Cell where
  | na : Cell
  | str : String → Cell
  | int : Int → Cell
deriving DecidableEq, Repr

/-- `astype(str)` (app.py:65-67): a missing value stringifies to the literal
text `"nan"` (Python `str(float('nan'))`), numbers to their decimal form. -/
def cellToStr : Cell → String
  | Cell.na => "nan"
  | Cell.str s => s
  | Cell.int n => toString n

/-- Python's `str.strip()` on the underlying character list: remove leading
and trailing whitespace. -/
def stripChars (l : List Char) : List Char :=
  ((l.dropWhile Char.isWhitespace).reverse.dropWhile Char.isWhitespace).reverse

/-- Python's `str.strip()` (`.str.strip()`, app.py:65-67). -/
def pyStrip (s : String) : String := ⟨stripChars s.data⟩

/-- Python's `str.upper()` (`.str.upper()`, app.py:65-67): uppercase each
character. -/
def pyUpper (s : String) : String := ⟨s.data.map Char.toUpper⟩

/-- The string normalization `.astype(str).str.strip().str.upper()` applied to
the `Producto`, `Marca` and `Ubicacion` columns (app.py:65-67). -/
def strNorm (c : Cell) : String := pyUpper (pyStrip (cellToStr c))

/-- Whether a cell is missing, i.e. what `dropna` tests (app.py:70). -/
def isNA : Cell → Bool
  | Cell.na => true
  | _ => false

/-- Integer parsing of a text cell, modelling `pd.to_numeric(..., errors='coerce')`
(app.py:77) on the box-count column: optional sign followed by decimal digits,
surrounding whitespace tolerated; anything else fails to parse. -/
def parseIntStr (s : String) : Option Int :=
  let t := stripChars s.data
  let core := match t with
    | '-' :: rest => rest
    | '+' :: rest => rest
    | l => l
  if core ≠ [] ∧ core.all Char.isDigit then
    let n : Nat := core.foldl (fun acc c => acc * 10 + (c.toNat - 48)) 0
    some (match t with
      | '-' :: _ => -(n : Int)
      | _ => (n : Int))
  else none

/-- `pd.to_numeric(col, errors='coerce').fillna(0).astype(int)` (app.py:77):
numeric cells pass through, unparseable text becomes `NaN` and then `0`.
(The `Cell.na` case is unreachable after `dropna`, and `fillna(0)` would send
it to `0` as well.) -/
def coerceCajas : Cell → Int
  | Cell.na => 0
  | Cell.int n => n
  | Cell.str s => (parseIntStr s).getD 0

/-- One cleaned inventory record: the canonical columns `Producto`,
`Marca`, `Ubicacion` and `Cajas disponibles` of the processed DataFrame. -/
structure Record where
  producto : String
  marca : String
  ubicacion : String
  cajas : Int
deriving DecidableEq, Repr

/-- The record produced from one raw data row.  Column positions follow
`expected_excel_headers = ['PRODUCTO', 'CAJA APROX', 'MARCA', 'UBICACION']`
(app.py:30) and the rename to `Producto`, `Cajas disponibles`, `Marca`,
`Ubicacion` (app.py:45-51).  Short rows are padded with `NaN`, as pandas does. -/
def mkRecord (row : List Cell) : Record :=
  { producto := strNorm (row.getD 0 Cell.na)
    marca := strNorm (row.getD 2 Cell.na)
    ubicacion := strNorm (row.getD 3 Cell.na)
    cajas := coerceCajas (row.getD 1 Cell.na) }

/-- The `dropna(subset=['Producto', 'Marca', 'Ubicacion', 'Cajas disponibles'])`
test (app.py:70).  By that point the `Producto`, `Marca` and `Ubicacion`
columns have been through `astype(str)` (app.py:65-67) and are strings, never
null, so only a missing `Cajas disponibles` cell can drop a row. -/
def keepRow (row : List Cell) : Bool := !(isNA (row.getD 1 Cell.na))

/-- The raw grid read by `pd.read_excel(..., header=None)` (app.py:27):
a rectangular table with `ncols` columns. -/
structure Grid where
  ncols : Nat
  rows : List (List Cell)

/-- The expected source headers (app.py:30). -/
def expected_excel_headers : List String :=
  ["PRODUCTO", "CAJA APROX", "MARCA", "UBICACION"]

/-- The failure modes of the loader that depend on the grid contents:
the exact column-count check (app.py:33-36) and the empty-after-cleaning
check (app.py:71-73).  Each aborts via `st.stop()` with a diagnostic, so no
record set is produced. -/
inductive LoadError where
  | columnCountError (expected actual : Nat)
  | emptyResultError
deriving DecidableEq, Repr

/-- The data pipeline of `load_and_process_data` (app.py:19-80), from the
parsed raw grid to the cleaned records:

1. require exactly `len(expected_excel_headers)` columns (app.py:33-36);
2. drop the first row, the source header (app.py:42);
3. rename columns (app.py:45-51) — with the fixed mapping the subsequent
   `required_final_cols` check (app.py:53-61) can never fire, so it does not
   appear here;
4. normalize string columns, drop rows with a missing `Cajas disponibles`
   cell, fail if nothing remains (app.py:65-73);
5. coerce the numeric column parse-or-zero (app.py:77). -/
def load_and_process_data (g : Grid) : Except LoadError (List Record) :=
  if g.ncols = expected_excel_headers.length then
    if ((g.rows.drop 1).filter keepRow).isEmpty then
      Except.error LoadError.emptyResultError
    else Except.ok (((g.rows.drop 1).filter keepRow).map mkRecord)
  else Except.error (LoadError.columnCountError expected_excel_headers.length g.ncols)

/-- The interactive filtering (app.py:136-142): start from the full record
set and successively restrict by `Marca`, `Ubicacion`, `Producto`, each
skipped when the selection is the sentinel `'Todos'`. -/
def df_filtrado (R : List Record) (marca ubicacion producto : String) : List Record :=
  let d1 := if marca = "Todos" then R else R.filter (fun r => decide (r.marca = marca))
  let d2 := if ubicacion = "Todos" then d1 else d1.filter (fun r => decide (r.ubicacion = ubicacion))
  if producto = "Todos" then d2 else d2.filter (fun r => decide (r.producto = producto))

/-- `df.groupby(key)['Cajas disponibles'].sum().reset_index()`: one output
pair per distinct key value, carrying the sum of `Cajas disponibles` over the
records with that exact key. -/
def groupBySum {K : Type} [DecidableEq K] (key : Record → K) (R : List Record) :
    List (K × Int) :=
  ((R.map key).dedup).map
    (fun k => (k, ((R.filter (fun r => decide (key r = k))).map Record.cajas).sum))

/-- Descending order on the summed quantity, the `ascending=False` sort key of
`sort_values('Cajas disponibles', ascending=False)` (app.py:244, app.py:285). -/
def sumDescRel {K : Type} (a b : K × Int) : Prop := b.2 ≤ a.2

instance {K : Type} : DecidableRel (@sumDescRel K) :=
  fun a b => inferInstanceAs (Decidable (b.2 ≤ a.2))

instance {K : Type} : IsTotal (K × Int) sumDescRel :=
  ⟨fun a b => le_total b.2 a.2⟩

instance {K : Type} : IsTrans (K × Int) sumDescRel :=
  ⟨fun _ _ _ h1 h2 => le_trans h2 h1⟩

/-- `sort_values('Cajas disponibles', ascending=False)` on an aggregated
table. -/
def sortDescBySum {K : Type} (l : List (K × Int)) : List (K × Int) :=
  List.insertionSort sumDescRel l

/-- `df_filtrado.groupby('Marca')['Cajas disponibles'].sum().reset_index()`
(app.py:188), feeding the brand pie chart. -/
def df_marca_total_filtrado (R : List Record) : List (String × Int) :=
  groupBySum Record.marca R

/-- The per-product summary table (app.py:279-285): group by `Producto`, sum
`Cajas disponibles`, sort descending by the sum. -/
def df_resumen_producto (R : List Record) : List (String × Int) :=
  sortDescBySum (groupBySum Record.producto R)

/-- `df_filtrado.groupby(['Producto', 'Marca'])['Cajas disponibles'].sum().reset_index()`
(app.py:240). -/
def df_agrupado (R : List Record) : List ((String × String) × Int) :=
  groupBySum (fun r => (r.producto, r.marca)) R

/-- `df_agrupado.sort_values('Cajas disponibles', ascending=False).head(10)`
(app.py:244): the ten largest product/brand groups by total boxes. -/
def top_10_productos (R : List Record) : List ((String × String) × Int) :=
  (sortDescBySum (df_agrupado R)).take 10

/-! ### Concrete grids used by witnesses and counterexamples -/

/-- The source header row discarded by `df_raw.iloc[1:]` (app.py:42). -/
def headerRow : List Cell :=
  [Cell.str "PRODUCTO", Cell.str "CAJA APROX", Cell.str "MARCA", Cell.str "UBICACION"]

/-- A data row with an empty (missing) product cell but a present box count. -/
def rowMissingProducto : List Cell :=
  [Cell.na, Cell.int 5, Cell.str "MARCA1", Cell.str "CAMARA 1"]

/-- A grid whose single data row has an empty product cell. -/
def c2Grid : Grid := ⟨4, [headerRow, rowMissingProducto]⟩

/-- A grid with a well-formed single data row. -/
def c8Grid : Grid :=
  ⟨4, [headerRow, [Cell.str "POLLO", Cell.int 7, Cell.str "ACME", Cell.str "CAM1"]]⟩

/-- The records produced from `c8Grid`. -/
def c8Records : List Record :=
  [{producto := "POLLO", marca := "ACME", ubicacion := "CAM1", cajas := 7}]

/-- A data row whose box-count cell holds the unparseable text `"N/A"`. -/
def c5Row : List Cell :=
  [Cell.str "POLLO", Cell.str "N/A", Cell.str "ACME", Cell.str "CAM2"]

/-- A grid whose single data row has `"N/A"` in the numeric column. -/
def c5Grid : Grid := ⟨4, [headerRow, c5Row]⟩

/-- A grid whose single data row carries unnormalized text cells. -/
def c9Grid : Grid :=
  ⟨4, [headerRow, [Cell.str " pollo ", Cell.int 3, Cell.str "acme ", Cell.str " cam1"]]⟩

/-- A data row with a missing product cell and a present box count. -/
def c10RowKept : List Cell := [Cell.na, Cell.int 2, Cell.str "M1", Cell.str "U1"]

/-- A grid with one row missing its product cell and one row missing its
box-count cell. -/
def c10Grid : Grid :=
  ⟨4, [headerRow, c10RowKept, [Cell.str "X", Cell.na, Cell.str "M1", Cell.str "U1"]]⟩

/-- A grid whose single data row has an empty-string product and a negative
box count. -/
def c1Grid : Grid :=
  ⟨4, [headerRow, [Cell.str "", Cell.int (-9), Cell.str "MARCA1", Cell.str "CAM1"]]⟩

/-! ### Helper lemmas about the loader -/

/-- A successful load means the column count matched and the records are
exactly the cleaned, coerced surviving rows. -/
lemma load_ok_inv {g : Grid} {R : List Record}
    (h : load_and_process_data g = Except.ok R) :
    g.ncols = expected_excel_headers.length ∧
      R = ((g.rows.drop 1).filter keepRow).map mkRecord := by
  unfold load_and_process_data at h
  by_cases hc : g.ncols = expected_excel_headers.length
  · rw [if_pos hc] at h
    by_cases he : ((g.rows.drop 1).filter keepRow).isEmpty
    · rw [if_pos he] at h; simp at h
    · rw [if_neg he] at h
      refine ⟨hc, ?_⟩
      injection h with h'
      exact h'.symm
  · rw [if_neg hc] at h; simp at h

/-- Every record of a successful load comes from a surviving data row. -/
lemma mem_of_load_ok {g : Grid} {R : List Record}
    (h : load_and_process_data g = Except.ok R) {r : Record} (hr : r ∈ R) :
    ∃ row ∈ g.rows.drop 1, keepRow row = true ∧ r = mkRecord row := by
  obtain ⟨-, hR⟩ := load_ok_inv h
  subst hR
  obtain ⟨row, hrow, hmk⟩ := List.mem_map.mp hr
  exact ⟨row, (List.mem_filter.mp hrow).1, (List.mem_filter.mp hrow).2, hmk.symm⟩

/-- Conversely, a data row that survives `dropna` makes the load succeed and
contributes its record to the output. -/
lemma load_ok_of_kept_mem {g : Grid}
    (hc : g.ncols = expected_excel_headers.length)
    {row : List Cell} (hrow : row ∈ g.rows.drop 1) (hk : keepRow row = true) :
    ∃ R, load_and_process_data g = Except.ok R ∧ mkRecord row ∈ R := by
  have hmem : row ∈ (g.rows.drop 1).filter keepRow := List.mem_filter.mpr ⟨hrow, hk⟩
  have hne : ¬ ((g.rows.drop 1).filter keepRow).isEmpty := by
    intro he
    rw [List.isEmpty_iff] at he
    rw [he] at hmem
    exact (List.not_mem_nil _) hmem
  refine ⟨((g.rows.drop 1).filter keepRow).map mkRecord, ?_, List.mem_map_of_mem _ hmem⟩
  unfold load_and_process_data
  rw [if_pos hc, if_neg hne]

/-! ### Helper lemmas about group-by-sum -/

/-- Splitting a mapped sum along a Boolean predicate. -/
lemma sum_map_filter_split (p : Record → Bool) (l : List Record) :
    ((l.filter p).map Record.cajas).sum
      + ((l.filter (fun a => !(p a))).map Record.cajas).sum
      = (l.map Record.cajas).sum := by
  induction l with
  | nil => simp
  | cons a l ih =>
    by_cases hp : p a
    · simp only [List.filter_cons, hp, if_true, Bool.not_true, Bool.false_eq_true, if_false,
        List.map_cons, List.sum_cons]
      rw [add_assoc, ih]
    · have hp' : p a = false := by simpa using hp
      simp only [List.filter_cons, hp', Bool.not_false, if_true, Bool.false_eq_true, if_false,
        List.map_cons, List.sum_cons]
      rw [add_left_comm, ih]

/-- Summing the per-key filtered sums over a duplicate-free list of keys that
covers every record gives the total sum. -/
lemma sum_over_keys {K : Type} [DecidableEq K] (key : Record → K) :
    ∀ (ks : List K) (R : List Record), ks.Nodup → (∀ r ∈ R, key r ∈ ks) →
      (ks.map (fun k =>
        ((R.filter (fun r => decide (key r = k))).map Record.cajas).sum)).sum
        = (R.map Record.cajas).sum := by
  intro ks
  induction ks with
  | nil =>
    intro R _ hcov
    cases R with
    | nil => simp
    | cons r R => exact absurd (hcov r (List.mem_cons_self _ _)) (List.not_mem_nil _)
  | cons k ks ih =>
    intro R hnd hcov
    have hnd' : ks.Nodup := (List.nodup_cons.mp hnd).2
    have hknot : k ∉ ks := (List.nodup_cons.mp hnd).1
    -- the records not in group `k`
    have hcov' : ∀ r ∈ R.filter (fun r => !(decide (key r = k))), key r ∈ ks := by
      intro r hr
      obtain ⟨hrR, hrk⟩ := List.mem_filter.mp hr
      have : key r ≠ k := by simpa using hrk
      rcases List.mem_cons.mp (hcov r hrR) with h | h
      · exact absurd h this
      · exact h
    -- groups other than `k` are unchanged by removing group `k`
    have hsame : ∀ k' ∈ ks,
        (R.filter (fun r => !(decide (key r = k)))).filter (fun r => decide (key r = k'))
          = R.filter (fun r => decide (key r = k')) := by
      intro k' hk'
      rw [List.filter_filter]
      apply List.filter_congr
      intro r _
      have hkk : ¬ k' = k := fun he => hknot (he ▸ hk')
      by_cases h : key r = k'
      · simp [h, hkk]
      · simp [h]
    have hmaps : ks.map (fun k' =>
          ((R.filter (fun r => decide (key r = k'))).map Record.cajas).sum)
        = ks.map (fun k' =>
          (((R.filter (fun r => !(decide (key r = k)))).filter
              (fun r => decide (key r = k'))).map Record.cajas).sum) := by
      apply List.map_congr_left
      intro k' hk'
      rw [hsame k' hk']
    rw [List.map_cons, List.sum_cons, hmaps,
      ih (R.filter (fun r => !(decide (key r = k)))) hnd' hcov',
      sum_map_filter_split (fun r => decide (key r = k)) R]

/-- The grand total of a `groupBySum` equals the total over all records. -/
lemma groupBySum_total {K : Type} [DecidableEq K] (key : Record → K) (R : List Record) :
    ((groupBySum key R).map Prod.snd).sum = (R.map Record.cajas).sum := by
  unfold groupBySum
  rw [List.map_map]
  have : (Prod.snd ∘ fun k =>
      (k, ((R.filter (fun r => decide (key r = k))).map Record.cajas).sum))
      = fun k => ((R.filter (fun r => decide (key r = k))).map Record.cajas).sum := rfl
  rw [this]
  exact sum_over_keys key _ R (List.nodup_dedup _)
    (fun r hr => List.mem_dedup.mpr (List.mem_map_of_mem key hr))

/-- Each pair of a `groupBySum` carries exactly the sum of its group. -/
lemma groupBySum_mem {K : Type} [DecidableEq K] {key : Record → K} {R : List Record}
    {k : K} {s : Int} (h : (k, s) ∈ groupBySum key R) :
    s = ((R.filter (fun r => decide (key r = k))).map Record.cajas).sum := by
  obtain ⟨k', _, hk⟩ := List.mem_map.mp h
  have h1 : k' = k := congrArg Prod.fst hk
  have h2 : ((R.filter (fun r => decide (key r = k'))).map Record.cajas).sum = s :=
    congrArg Prod.snd hk
  subst h1
  exact h2.symm

/-- Descending sort is a permutation of its input. -/
lemma sortDescBySum_perm {K : Type} (l : List (K × Int)) :
    (sortDescBySum l).Perm l :=
  List.perm_insertionSort sumDescRel l

/-- One sentinel-guarded filtering stage is a single `filter` whose predicate
is trivially true when the selection is the sentinel. -/
lemma filter_stage (c : Prop) [Decidable c] (p : Record → Bool) (R' : List Record) :
    (if c then R' else R'.filter p) = R'.filter (fun r => decide c || p r) := by
  by_cases hc : c
  · simp [hc]
  · simp [hc]

/-- Three composed filters collapse into one conjunctive filter. -/
lemma filter_filter_filter (pm pu pp : Record → Bool) (R : List Record) :
    ((R.filter pm).filter pu).filter pp
      = R.filter (fun r => pm r && (pu r && pp r)) := by
  rw [List.filter_filter, List.filter_filter]
  apply List.filter_congr
  intro r _
  cases pm r <;> cases pu r <;> cases pp r <;> rfl

/-! ### The claims -/

/-- C3: for every raw grid whose column count differs from the schema's
declared count of 4, the load fails with a `ColumnCountError` carrying the
expected and actual counts, and no record set is produced. -/
theorem c3_column_count_error (g : Grid) (h : g.ncols ≠ 4) :
    load_and_process_data g
      = Except.error (LoadError.columnCountError 4 g.ncols) := by
  unfold load_and_process_data
  rw [if_neg]
  · rfl
  · exact fun hc => h hc

/-- Witness for C3 on a concrete 3-column grid. -/
theorem c3_witness :
    load_and_process_data (Grid.mk 3 [])
      = Except.error (LoadError.columnCountError 4 3) :=
  c3_column_count_error (Grid.mk 3 []) (by decide)

/-- C8: the loader is a deterministic, pure function of the grid — two
successful loads of the same input yield structurally equal record sets. -/
theorem c8_load_deterministic (g : Grid) (R1 R2 : List Record)
    (h1 : load_and_process_data g = Except.ok R1)
    (h2 : load_and_process_data g = Except.ok R2) : R1 = R2 := by
  rw [h1] at h2
  injection h2

/-- Witness for C8: two loads of `c8Grid` produce the same records. -/
theorem c8_witness :
    load_and_process_data c8Grid = Except.ok c8Records ∧ c8Records = c8Records :=
  ⟨by rfl, c8_load_deterministic c8Grid c8Records c8Records (by rfl) (by rfl)⟩

/-- C2 (code bug): on a grid whose only data row has an empty product cell,
the claim (and the comment at app.py:69) expects the row to be dropped and the
load to fail with `EmptyResultError`; instead `astype(str)` (app.py:65) has
already turned the missing product into the string `"nan"`, so `dropna`
(app.py:70) keeps the row and the load succeeds with `Producto = "NAN"`. -/
theorem c2_empty_product_not_dropped :
    load_and_process_data c2Grid
      = Except.ok [{producto := "NAN", marca := "MARCA1",
                    ubicacion := "CAMARA 1", cajas := 5}] := by rfl

/-- C5: a record whose numeric cell holds unparseable text is kept, with the
box count coerced to `0` — the load neither fails nor drops the row. -/
theorem c5_unparseable_coerces_to_zero (g : Grid) (hc : g.ncols = 4)
    (row : List Cell) (hrow : row ∈ g.rows.drop 1) (s : String)
    (hcell : row.getD 1 Cell.na = Cell.str s) (hparse : parseIntStr s = none) :
    ∃ R, load_and_process_data g = Except.ok R ∧ mkRecord row ∈ R ∧
      (mkRecord row).cajas = 0 := by
  have hk : keepRow row = true := by
    unfold keepRow
    rw [hcell]
    rfl
  have hc4 : g.ncols = expected_excel_headers.length := hc
  obtain ⟨R, hR, hmem⟩ := load_ok_of_kept_mem hc4 hrow hk
  refine ⟨R, hR, hmem, ?_⟩
  have hcajas : (mkRecord row).cajas = coerceCajas (row.getD 1 Cell.na) := rfl
  rw [hcajas, hcell]
  show (parseIntStr s).getD 0 = 0
  rw [hparse]
  rfl

/-- Witness for C5 on a grid whose box-count cell is the text `"N/A"`. -/
theorem c5_witness :
    ∃ R, load_and_process_data c5Grid = Except.ok R ∧ mkRecord c5Row ∈ R ∧
      (mkRecord c5Row).cajas = 0 :=
  c5_unparseable_coerces_to_zero c5Grid (by rfl) c5Row (by decide) "N/A"
    (by rfl) (by rfl)

/-- C9: every string field of a loaded record is the uppercase of the
whitespace-stripped string form of the corresponding source cell
(app.py:65-67), so all later equality filters and group-bys see these
normalized values, never the raw cell text. -/
theorem c9_fields_normalized (g : Grid) (R : List Record)
    (h : load_and_process_data g = Except.ok R) :
    ∀ r ∈ R, ∃ row ∈ g.rows.drop 1,
      r.producto = pyUpper (pyStrip (cellToStr (row.getD 0 Cell.na))) ∧
      r.marca = pyUpper (pyStrip (cellToStr (row.getD 2 Cell.na))) ∧
      r.ubicacion = pyUpper (pyStrip (cellToStr (row.getD 3 Cell.na))) := by
  intro r hr
  obtain ⟨row, hrow, -, hmk⟩ := mem_of_load_ok h hr
  exact ⟨row, hrow, by rw [hmk]; rfl, by rw [hmk]; rfl, by rw [hmk]; rfl⟩

/-- Witness for C9: the mixed-case padded cells of `c9Grid` surface trimmed
and uppercased. -/
theorem c9_witness :
    ∃ row ∈ c9Grid.rows.drop 1,
      ({producto := "POLLO", marca := "ACME", ubicacion := "CAM1",
        cajas := 3} : Record).producto
          = pyUpper (pyStrip (cellToStr (row.getD 0 Cell.na))) ∧
      ({producto := "POLLO", marca := "ACME", ubicacion := "CAM1",
        cajas := 3} : Record).marca
          = pyUpper (pyStrip (cellToStr (row.getD 2 Cell.na))) ∧
      ({producto := "POLLO", marca := "ACME", ubicacion := "CAM1",
        cajas := 3} : Record).ubicacion
          = pyUpper (pyStrip (cellToStr (row.getD 3 Cell.na))) :=
  c9_fields_normalized c9Grid
    [{producto := "POLLO", marca := "ACME", ubicacion := "CAM1", cajas := 3}]
    (by rfl)
    {producto := "POLLO", marca := "ACME", ubicacion := "CAM1", cajas := 3}
    (List.mem_singleton.mpr rfl)

/-- C10: during cleaning only a missing `Cajas disponibles` cell drops a row;
a missing `Producto` (or `Marca`/`Ubicacion`) cell is stringified to the
literal `"NAN"` before the null-drop step, so such rows are kept. -/
theorem c10_dropna_only_numeric (g : Grid) (hc : g.ncols = 4) :
    (∀ row ∈ g.rows.drop 1, ¬ isNA (row.getD 1 Cell.na) →
        ∃ R, load_and_process_data g = Except.ok R ∧ mkRecord row ∈ R) ∧
    (∀ row : List Cell, isNA (row.getD 0 Cell.na) →
        (mkRecord row).producto = "NAN") ∧
    (∀ R, load_and_process_data g = Except.ok R →
        ∀ r ∈ R, ∃ row ∈ g.rows.drop 1,
          ¬ isNA (row.getD 1 Cell.na) ∧ r = mkRecord row) := by
  refine ⟨?_, ?_, ?_⟩
  · intro row hrow h1
    have hk : keepRow row = true := by
      unfold keepRow
      simpa using h1
    obtain ⟨R, hR, hmem⟩ := load_ok_of_kept_mem hc hrow hk
    exact ⟨R, hR, hmem⟩
  · intro row h0
    have hna : row.getD 0 Cell.na = Cell.na := by
      cases hcell : row.getD 0 Cell.na with
      | na => rfl
      | str s => rw [hcell] at h0; simp [isNA] at h0
      | int n => rw [hcell] at h0; simp [isNA] at h0
    have hp : (mkRecord row).producto = strNorm (row.getD 0 Cell.na) := rfl
    rw [hp, hna]
    rfl
  · intro R hR r hr
    obtain ⟨row, hrow, hk, hmk⟩ := mem_of_load_ok hR hr
    refine ⟨row, hrow, ?_, hmk⟩
    unfold keepRow at hk
    simpa using hk

/-- Witness for C10: the row with the missing product survives with
`Producto = "NAN"` while the row with the missing box count is gone. -/
theorem c10_witness :
    (∃ R, load_and_process_data c10Grid = Except.ok R ∧ mkRecord c10RowKept ∈ R) ∧
      (mkRecord c10RowKept).producto = "NAN" :=
  ⟨(c10_dropna_only_numeric c10Grid (by rfl)).1 c10RowKept (by decide) (by decide),
   (c10_dropna_only_numeric c10Grid (by rfl)).2.1 c10RowKept (by decide)⟩

/-- C1 is false on the code: `c1Grid` loads successfully, yet its record has
a negative `Cajas disponibles` (the coercion at app.py:77 never clamps) and an
empty `Producto` (empty strings are not nulls, so `dropna` at app.py:70 keeps
them). -/
theorem c1_counterexample :
    load_and_process_data c1Grid
        = Except.ok [{producto := "", marca := "MARCA1",
                      ubicacion := "CAM1", cajas := -9}] ∧
      ¬ (0 ≤ (-9 : Int)) ∧ ¬ (pyStrip "" ≠ "") :=
  ⟨by rfl, by decide, by decide⟩

/-- C1 (amended): every record of a successful load has an integer quantity
field equal to the parse-or-zero coercion of its source cell — possibly
negative — and string fields equal to the strip-uppercase normalization of
their source cells — possibly empty. -/
theorem c1_amended_fields_from_source (g : Grid) (R : List Record)
    (h : load_and_process_data g = Except.ok R) :
    ∀ r ∈ R, ∃ row ∈ g.rows.drop 1,
      r.cajas = coerceCajas (row.getD 1 Cell.na) ∧
      r.producto = strNorm (row.getD 0 Cell.na) ∧
      r.marca = strNorm (row.getD 2 Cell.na) ∧
      r.ubicacion = strNorm (row.getD 3 Cell.na) := by
  intro r hr
  obtain ⟨row, hrow, -, hmk⟩ := mem_of_load_ok h hr
  exact ⟨row, hrow, by rw [hmk]; rfl, by rw [hmk]; rfl, by rw [hmk]; rfl,
    by rw [hmk]; rfl⟩

/-- Witness for C1 (amended) on `c1Grid`. -/
theorem c1_witness :
    ∃ row ∈ c1Grid.rows.drop 1,
      ({producto := "", marca := "MARCA1", ubicacion := "CAM1",
        cajas := -9} : Record).cajas = coerceCajas (row.getD 1 Cell.na) ∧
      ({producto := "", marca := "MARCA1", ubicacion := "CAM1",
        cajas := -9} : Record).producto = strNorm (row.getD 0 Cell.na) ∧
      ({producto := "", marca := "MARCA1", ubicacion := "CAM1",
        cajas := -9} : Record).marca = strNorm (row.getD 2 Cell.na) ∧
      ({producto := "", marca := "MARCA1", ubicacion := "CAM1",
        cajas := -9} : Record).ubicacion = strNorm (row.getD 3 Cell.na) :=
  c1_amended_fields_from_source c1Grid
    [{producto := "", marca := "MARCA1", ubicacion := "CAM1", cajas := -9}]
    (by rfl)
    {producto := "", marca := "MARCA1", ubicacion := "CAM1", cajas := -9}
    (List.mem_singleton.mpr rfl)

/-- C4: `df_filtrado` returns exactly the order-preserved subset of the
records satisfying the conjunction of the equality criteria, a criterion
being vacuous when its value is the sentinel `'Todos'`; with all three
sentinels the input comes back unchanged. -/
theorem c4_filter_exact_subset (R : List Record) (m u p : String) :
    df_filtrado R m u p
        = R.filter (fun r =>
            (decide (m = "Todos") || decide (r.marca = m)) &&
            ((decide (u = "Todos") || decide (r.ubicacion = u)) &&
             (decide (p = "Todos") || decide (r.producto = p)))) ∧
      df_filtrado R "Todos" "Todos" "Todos" = R := by
  constructor
  · simp only [df_filtrado]
    rw [filter_stage (m = "Todos"), filter_stage (u = "Todos"),
      filter_stage (p = "Todos"), filter_filter_filter]
  · simp [df_filtrado]

/-- C6: summing the per-group totals of the brand aggregation (app.py:188) or
of the product summary (app.py:279-285) gives back the total of
`Cajas disponibles` over all records — no quantity is lost or duplicated by
grouping. -/
theorem c6_aggregation_preserves_total (R : List Record) :
    ((df_marca_total_filtrado R).map Prod.snd).sum = (R.map Record.cajas).sum ∧
      ((df_resumen_producto R).map Prod.snd).sum = (R.map Record.cajas).sum := by
  constructor
  · exact groupBySum_total Record.marca R
  · unfold df_resumen_producto
    rw [List.Perm.sum_eq ((sortDescBySum_perm (groupBySum Record.producto R)).map Prod.snd)]
    exact groupBySum_total Record.producto R

/-- C7: the top-10 table (app.py:240-244) groups records by exact equality on
the `(Producto, Marca)` pair, sums `Cajas disponibles` per group, sorts the
groups descending by the summed quantity, covers every record's group, and
`head(10)` keeps exactly the prefix of length `min 10 (number of groups)`. -/
theorem c7_top10_sorted_and_truncated (R : List Record) :
    List.Sorted sumDescRel (sortDescBySum (df_agrupado R)) ∧
    (∀ k s, (k, s) ∈ top_10_productos R →
        s = ((R.filter (fun r => decide ((r.producto, r.marca) = k))).map
          Record.cajas).sum) ∧
    (∀ r ∈ R, ∃ s, ((r.producto, r.marca), s) ∈ sortDescBySum (df_agrupado R)) ∧
    (∃ rest, sortDescBySum (df_agrupado R) = top_10_productos R ++ rest) ∧
    (top_10_productos R).length = min 10 (df_agrupado R).length := by
  refine ⟨List.sorted_insertionSort sumDescRel (df_agrupado R), ?_, ?_, ?_, ?_⟩
  · intro k s hmem
    have h1 : (k, s) ∈ sortDescBySum (df_agrupado R) := List.take_subset 10 _ hmem
    have h2 : (k, s) ∈ df_agrupado R :=
      (sortDescBySum_perm (df_agrupado R)).mem_iff.mp h1
    exact groupBySum_mem h2
  · intro r hr
    have hk : (r.producto, r.marca)
        ∈ (R.map (fun r => (r.producto, r.marca))).dedup :=
      List.mem_dedup.mpr (List.mem_map_of_mem _ hr)
    refine ⟨((R.filter (fun x => decide ((x.producto, x.marca)
        = (r.producto, r.marca)))).map Record.cajas).sum, ?_⟩
    exact (sortDescBySum_perm (df_agrupado R)).mem_iff.mpr
      (List.mem_map_of_mem _ hk)
  · exact ⟨(sortDescBySum (df_agrupado R)).drop 10,
      (List.take_append_drop 10 _).symm⟩
  · unfold top_10_productos
    rw [List.length_take, (sortDescBySum_perm (df_agrupado R)).length_eq]
